import Mathlib

/-!
# Verification of the gtfs2series ingestion pipeline

Shallow embedding of the gtfs2series repository: the relational schema
declared in `models/schedule.py` and `models/realtime.py`, the GeoShape
derivation and poll-cycle control flow of `schedule_fetcher.py`, and the
poll cycles of `realtime_fetcher.py`, `test_vehicle_positions.py` and
`test_trip_updates.py`.

Conventions of the embedding:
* CSV cells and protobuf scalar renderings are kept as `String` (the
  fetchers read CSV with `dtype=str` and only ever interpolate latitude /
  longitude into WKT strings, never compute on them).
* Calendar timestamps are represented as `Int` seconds (epoch shifted by
  the system's local UTC offset, which `datetime.fromtimestamp` applies);
  raw epoch integers are `Nat`.
* A pandas DataFrame is a `Frame`: an ordered column list plus rows, each
  row an association list of present cells (a missing pair is a NaN cell,
  exactly as `pd.json_normalize` leaves fields absent from an entity).
* Exceptions that a step may raise are `Except Unit`; a `true` value of
  an `…Ok` argument means the corresponding external call (HTTP fetch and
  protobuf decode, or a database insert) did not raise.
-/

/-! ## Relational schema (models/schedule.py, models/realtime.py) -/

/-- A composite foreign-key constraint, as declared by a SQLAlchemy
`ForeignKeyConstraint(srcCols, tgtTable.tgtCols)` in `models/schedule.py`. -/
structure FKC where
  srcCols : List String
  tgtTable : String
  tgtCols : List String
deriving DecidableEq, Repr

/-- A table: its name, primary-key columns in declaration order, and its
foreign-key constraints, as declared in `models/schedule.py`. -/
structure TableSchema where
  name : String
  pkCols : List String
  fks : List FKC
deriving DecidableEq, Repr

/-- Table `feeds` (class `Feed`). -/
def feedsTable : TableSchema :=
  { name := "feeds", pkCols := ["feed_id"], fks := [] }

/-- Table `agency` (class `Agency`). -/
def agencyTable : TableSchema :=
  { name := "agency", pkCols := ["feed_id", "agency_id"],
    fks := [⟨["feed_id"], "feeds", ["feed_id"]⟩] }

/-- Table `stops` (class `Stop`). -/
def stopsTable : TableSchema :=
  { name := "stops", pkCols := ["feed_id", "stop_id"],
    fks := [⟨["feed_id"], "feeds", ["feed_id"]⟩] }

/-- Table `routes` (class `Route`). -/
def routesTable : TableSchema :=
  { name := "routes", pkCols := ["feed_id", "route_id"],
    fks := [⟨["feed_id"], "feeds", ["feed_id"]⟩,
            ⟨["feed_id", "agency_id"], "agency", ["feed_id", "agency_id"]⟩] }

/-- Table `trips` (class `Trip`). -/
def tripsTable : TableSchema :=
  { name := "trips", pkCols := ["feed_id", "trip_id"],
    fks := [⟨["feed_id"], "feeds", ["feed_id"]⟩,
            ⟨["feed_id", "route_id"], "routes", ["feed_id", "route_id"]⟩,
            ⟨["feed_id", "service_id"], "calendar", ["feed_id", "service_id"]⟩,
            ⟨["feed_id", "geoshape_id"], "geoshapes", ["feed_id", "geoshape_id"]⟩] }

/-- Table `stop_times` (class `StopTime`). -/
def stopTimesTable : TableSchema :=
  { name := "stop_times", pkCols := ["feed_id", "trip_id", "stop_sequence"],
    fks := [⟨["feed_id"], "feeds", ["feed_id"]⟩,
            ⟨["feed_id", "trip_id"], "trips", ["feed_id", "trip_id"]⟩,
            ⟨["feed_id", "stop_id"], "stops", ["feed_id", "stop_id"]⟩] }

/-- Table `calendar` (class `Calendar`). -/
def calendarTable : TableSchema :=
  { name := "calendar", pkCols := ["feed_id", "service_id"],
    fks := [⟨["feed_id"], "feeds", ["feed_id"]⟩] }

/-- Table `calendar_dates` (class `CalendarDate`). -/
def calendarDatesTable : TableSchema :=
  { name := "calendar_dates", pkCols := ["feed_id", "service_id", "date"],
    fks := [⟨["feed_id"], "feeds", ["feed_id"]⟩,
            ⟨["feed_id", "service_id"], "calendar", ["feed_id", "service_id"]⟩] }

/-- Table `shapes` (class `Shape`). -/
def shapesTable : TableSchema :=
  { name := "shapes", pkCols := ["feed_id", "shape_id", "shape_pt_sequence"],
    fks := [⟨["feed_id"], "feeds", ["feed_id"]⟩] }

/-- Table `geoshapes` (class `GeoShape`). -/
def geoshapesTable : TableSchema :=
  { name := "geoshapes", pkCols := ["feed_id", "geoshape_id"],
    fks := [⟨["feed_id"], "feeds", ["feed_id"]⟩] }

/-- Table `frequencies` (class `Frequency`). -/
def frequenciesTable : TableSchema :=
  { name := "frequencies", pkCols := ["feed_id", "trip_id", "start_time"],
    fks := [⟨["feed_id"], "feeds", ["feed_id"]⟩,
            ⟨["feed_id", "trip_id"], "trips", ["feed_id", "trip_id"]⟩] }

/-- Table `feed_info` (class `FeedInfo`). -/
def feedInfoTable : TableSchema :=
  { name := "feed_info", pkCols := ["feed_id", "id"],
    fks := [⟨["feed_id"], "feeds", ["feed_id"]⟩] }

/-- Every Schedule child table (everything in `models/schedule.py` except
the parent `feeds` table itself). -/
def scheduleChildTables : List TableSchema :=
  [agencyTable, stopsTable, routesTable, tripsTable, stopTimesTable,
   calendarTable, calendarDatesTable, shapesTable, geoshapesTable,
   frequenciesTable, feedInfoTable]

/-- A row valuation: each column name maps to the value stored there. -/
def RowVal : Type := String → String

/-- A foreign-key constraint holds between a referencing row `r` and a
referenced row `s` when the paired source/target columns agree. -/
def fkHolds (fk : FKC) (r s : RowVal) : Prop :=
  ∀ p ∈ fk.srcCols.zip fk.tgtCols, r p.1 = s p.2

/-- Declared column list of the `vehicle_positions` table
(class `VehiclePosition` in `models/realtime.py`). -/
def vehiclePositionColumns : List String :=
  ["feedMessage_timestamp", "feedMessage_entityType", "entityId",
   "vehicle_trip_tripId", "vehicle_trip_routeId", "vehicle_trip_directionId",
   "vehicle_trip_startTime", "vehicle_trip_startDate",
   "vehicle_trip_scheduleRelationship",
   "vehicle_vehicle_id", "vehicle_vehicle_label",
   "vehicle_vehicle_licensePlate", "vehicle_vehicle_wheelchairAccessible",
   "vehicle_position_latitude", "vehicle_position_longitude",
   "vehicle_position_point", "vehicle_position_bearing",
   "vehicle_position_odometer", "vehicle_position_speed",
   "vehicle_currentStopSequence", "vehicle_stopId", "vehicle_currentStatus",
   "vehicle_timestamp", "vehicle_congestionLevel", "vehicle_occupancyStatus",
   "vehicle_occupancyPercentage", "vehicle_multiCarriageDetails"]

/-! ## GeoShape derivation (schedule_fetcher.py, shapes block of `fetch`) -/

/-- One row of the `shapes.txt` table as loaded by the fetcher
(`pd.read_csv(..., dtype=str)`: coordinate cells stay strings; the
sequence is kept as the integer the schema declares — the derivation in
the source never reads it). -/
structure ShapeRow where
  shape_id : String
  shape_pt_sequence : Nat
  shape_pt_lat : String
  shape_pt_lon : String
deriving DecidableEq, Repr

/-- Embeds `table["shape_id"].unique()`: distinct shape ids in first-occurrence
(file row) order. -/
def uniqueIds (rows : List ShapeRow) : List String :=
  rows.foldl (fun acc r => if acc.contains r.shape_id then acc else acc ++ [r.shape_id]) []

/-- Embeds `table[table["shape_id"] == shape_id]`: the group for one shape id,
in file row order. -/
def shapeGroup (rows : List ShapeRow) (sid : String) : List ShapeRow :=
  rows.filter (fun r => r.shape_id == sid)

/-- The WKT built by the source: start from `"LINESTRING("`, append
`f"{lon} {lat},"` for each row of the group in iteration order, then
replace the final character with `")"` (`wkt[:-1] + ")"`). -/
def shapeWkt (group : List ShapeRow) : String :=
  let w := group.foldl
    (fun acc r => acc ++ r.shape_pt_lon ++ " " ++ r.shape_pt_lat ++ ",")
    "LINESTRING("
  w.dropRight 1 ++ ")"

/-- One persisted `geoshapes` record. -/
structure GeoShapeRec where
  feed_id : String
  geoshape_id : String
  geoshape : String
deriving DecidableEq, Repr

/-- The GeoShape derivation exactly as `fetch` performs it: one record per
distinct shape id, whose linestring concatenates the group's coordinates
in file row order (no sorting of any kind appears in the source). -/
def geoShapes (fid : String) (rows : List ShapeRow) : List GeoShapeRec :=
  (uniqueIds rows).map (fun sid => ⟨fid, sid, shapeWkt (shapeGroup rows sid)⟩)

/-- Ordering of shape rows by their point sequence. -/
def seqLe (a b : ShapeRow) : Prop := a.shape_pt_sequence ≤ b.shape_pt_sequence

instance : DecidableRel seqLe :=
  fun a b => Nat.decLe a.shape_pt_sequence b.shape_pt_sequence

/-- The GeoShape derivation as the spec words it: each group is first
ordered by `shape_pt_sequence` ascending, then concatenated. Stated only
for comparison with `geoShapes`; the source applies no such ordering. -/
def geoShapesSpec (fid : String) (rows : List ShapeRow) : List GeoShapeRec :=
  (uniqueIds rows).map
    (fun sid => ⟨fid, sid, shapeWkt (List.insertionSort seqLe (shapeGroup rows sid))⟩)

/-! ## Realtime feed message model and flattening

`realtime_fetcher.py` and the two test jobs decode a GTFS Realtime
protobuf `FeedMessage` with `ParseFromString`, convert it to a dict with
`json_format.MessageToDict` (absent optional fields and empty repeated
fields are omitted; `uint64` timestamps render as decimal) and flatten the
entity list with `pd.json_normalize(..., sep="_")`. -/

/-- A cell value of a flattened frame. `str` covers wire strings and the
decimal renderings of floats; `nat` a raw epoch-seconds integer; `time` a
calendar timestamp in seconds carrying the zone shift already applied. -/
inductive Value where
  | str : String → Value
  | nat : Nat → Value
  | time : Int → Value
deriving DecidableEq, Repr

/-- A flattened row: the cells present for this entity, in key order.
A column of the frame missing from the list is a NaN cell. -/
abbrev FlatRow : Type := List (String × Value)

/-- The `Position` sub-message: coordinates kept as their decimal renderings
(the jobs only ever interpolate them into WKT strings). -/
structure RTPosition where
  latitude : String
  longitude : String
deriving DecidableEq, Repr

/-- The `vehicle` (`VehiclePosition`) payload of an entity, with the
sub-fields the claims touch explicit and the rest as already-flattened
key/value pairs (keys relative to the `vehicle_` prefix). -/
structure RTVehicle where
  tripFields : List (String × Value)
  position : Option RTPosition
  timestamp : Option Nat
  multiCarriageDetails : Option String
  otherFields : List (String × Value)
deriving DecidableEq, Repr

/-- One `FeedEntity` of a vehicle-positions feed. -/
structure RTEntity where
  id : String
  vehicle : Option RTVehicle
deriving DecidableEq, Repr

/-- The `FeedHeader`: timestamp (epoch seconds), incrementality enum name,
`gtfs_realtime_version` string. -/
structure RTHeader where
  timestamp : Nat
  incrementality : String
  gtfsRealtimeVersion : String
deriving DecidableEq, Repr

/-- A decoded vehicle-positions `FeedMessage`. -/
structure RTFeedMessage where
  header : RTHeader
  entity : List RTEntity
deriving DecidableEq, Repr

/-- Flattening of the `vehicle` sub-message under `sep="_"`: every nested
field key is prefixed with its path; absent optional sub-messages and
fields produce no key at all. -/
def flattenVehicle (v : RTVehicle) : FlatRow :=
  v.tripFields.map (fun p => ("vehicle_trip_" ++ p.1, p.2))
  ++ (match v.position with
      | none => []
      | some pos => [("vehicle_position_latitude", Value.str pos.latitude),
                     ("vehicle_position_longitude", Value.str pos.longitude)])
  ++ (match v.timestamp with
      | none => []
      | some t => [("vehicle_timestamp", Value.nat t)])
  ++ (match v.multiCarriageDetails with
      | none => []
      | some m => [("vehicle_multiCarriageDetails", Value.str m)])
  ++ v.otherFields.map (fun p => ("vehicle_" ++ p.1, p.2))

/-- Flattening of one entity: its `id` plus the flattened payload. -/
def flattenEntity (e : RTEntity) : FlatRow :=
  ("id", Value.str e.id) :: (match e.vehicle with
                             | none => []
                             | some v => flattenVehicle v)

/-! ## Frames (pandas DataFrames) and their operations -/

/-- A flattened frame: ordered columns and rows. -/
structure Frame where
  columns : List String
  rows : List FlatRow
deriving DecidableEq, Repr

/-- Accumulate the keys of one row into a column list, first occurrence
first (how `pd.json_normalize` orders the union of keys). -/
def addKeys (acc : List String) (r : FlatRow) : List String :=
  r.foldl (fun acc2 p => if acc2.contains p.1 then acc2 else acc2 ++ [p.1]) acc

/-- Union of the keys of all rows, in first-appearance order. -/
def unionKeys (rows : List FlatRow) : List String :=
  rows.foldl addKeys []

/-- Embeds `pd.json_normalize(entities, sep="_")` on a non-empty entity list. -/
def normalizeEntities (entities : List RTEntity) : Frame :=
  ⟨unionKeys (entities.map flattenEntity), entities.map flattenEntity⟩

/-- Embeds `df.rename(columns={old: new})`. -/
def renameColumn (old new : String) (f : Frame) : Frame :=
  ⟨f.columns.map (fun c => if c == old then new else c),
   f.rows.map (fun r => r.map (fun p => if p.1 == old then (new, p.2) else p))⟩

/-- Embeds `df[name] = v`: a fresh constant column (appended at the end). -/
def addConstColumn (name : String) (v : Value) (f : Frame) : Frame :=
  ⟨f.columns ++ [name], f.rows.map (fun r => r ++ [(name, v)])⟩

/-- Cell lookup within a row. -/
def cellOf (r : FlatRow) (c : String) : Option Value :=
  (r.find? (fun p => p.1 == c)).map Prod.snd

/-- The text an f-string interpolation produces for a cell: the stored
string for present string cells, `"nan"` for a NaN cell (a float NaN
formats as `nan`), decimal rendering otherwise. -/
def cellText (r : FlatRow) (c : String) : String :=
  match cellOf r c with
  | some (Value.str s) => s
  | some (Value.nat n) => toString n
  | some (Value.time t) => toString t
  | none => "nan"

/-- Embeds the point-column step, `df.apply` of the lambda building
`f"POINT({row.vehicle_position_longitude} {row.vehicle_position_latitude})"`.
Attribute access on a row raises `AttributeError` when the column is
absent from the frame, so the step fails unless both coordinate columns
exist (the row set is non-empty whenever this step runs). -/
def addPointColumn (f : Frame) : Except Unit Frame :=
  if f.columns.contains "vehicle_position_longitude"
      && f.columns.contains "vehicle_position_latitude" then
    Except.ok ⟨f.columns ++ ["vehicle_position_point"],
      f.rows.map (fun r => r ++ [("vehicle_position_point",
        Value.str ("POINT(" ++ cellText r "vehicle_position_longitude" ++ " "
          ++ cellText r "vehicle_position_latitude" ++ ")"))])⟩
  else Except.error ()

/-- In-place conversion of one epoch-seconds column to calendar values:
`df[name] = df.apply(lambda row: datetime.datetime.fromtimestamp(int(row[name])) if pd.notnull(row[name]) else None, axis=1)`.
`datetime.fromtimestamp` renders the instant in the system local zone,
modelled as the UTC epoch value shifted by `off` seconds; NaN cells stay
absent. -/
def convertEpochColumn (off : Int) (name : String) (f : Frame) : Frame :=
  ⟨f.columns,
   f.rows.map (fun r => r.map (fun p =>
     if p.1 == name then
       (p.1, match p.2 with
             | Value.nat n => Value.time ((n : Int) + off)
             | v => v)
     else p))⟩

/-- The same conversion when the source does not guard for the column's
presence: attribute access raises if the column is missing. -/
def convertEpochColumnUnguarded (off : Int) (name : String) (f : Frame) :
    Except Unit Frame :=
  if f.columns.contains name then Except.ok (convertEpochColumn off name f)
  else Except.error ()

/-- Embeds `del df[name]` wrapped in `try/except: pass`: drop the column and its
cells when present, do nothing otherwise. -/
def dropColumn (name : String) (f : Frame) : Frame :=
  ⟨f.columns.filter (fun c => !(c == name)),
   f.rows.map (fun r => r.filter (fun p => !(p.1 == name)))⟩

/-! ## Poll cycle of schedule_fetcher.py -/

/-- The module-level `last_feed_tag` cell mutated by the schedule job. -/
structure SchedState where
  lastFeedTag : Option String
deriving DecidableEq, Repr

/-- Outcome of one run of the schedule `fetch` job: final global state,
the tables written (in insert order), and whether an exception escaped
the job function (no handler exists inside `fetch`). -/
structure SchedCycleResult where
  state : SchedState
  persisted : List String
  escaped : Bool
deriving DecidableEq, Repr

/-- The `tables` dict of schedule_fetcher.py, in its declared load order. -/
def scheduleLoadOrder : List String :=
  ["agency", "stops", "shapes", "calendar", "calendar_dates",
   "routes", "trips", "stop_times", "frequencies", "feed_info"]

/-- One run of the schedule `fetch` job. `fetchOk` is the HEAD request;
`persistFeedOk` the `feeds.to_sql` insert; `tableLoadsOk` abstracts the
download and the per-table loads and geoshape commit (none of which is
guarded by a handler). Faithful control flow of lines 74–133:
on a changed ETag the global `last_feed_tag` is reassigned immediately,
before the feed row or any table is persisted; nothing resets it when a
later step raises. -/
def scheduleFetchCycle (st : SchedState) (fetchOk : Bool) (etag : String)
    (persistFeedOk : Bool) (tableLoadsOk : Bool) : SchedCycleResult :=
  if !fetchOk then ⟨st, [], true⟩
  else if st.lastFeedTag == some etag then
    ⟨st, [], false⟩
  else
    let st' : SchedState := ⟨some etag⟩
    if !persistFeedOk then ⟨st', [], true⟩
    else if !tableLoadsOk then ⟨st', ["feeds"], true⟩
    else ⟨st', "feeds" :: (scheduleLoadOrder ++ ["geoshapes"]), false⟩

/-! ## Poll cycle of realtime_fetcher.py -/

/-- The module-level `last_timestamp` cell of the realtime job (it stores
the raw header epoch value). -/
structure RTState where
  lastTimestamp : Option Nat
deriving DecidableEq, Repr

/-- One `to_sql` call: target table, frame columns and rows. -/
structure PersistCall where
  table : String
  columns : List String
  rows : List FlatRow
deriving DecidableEq, Repr

/-- Outcome of one run of a realtime `fetch` job. -/
structure RTCycleResult where
  state : RTState
  persisted : List PersistCall
  escaped : Bool
  loggedError : Bool
deriving DecidableEq, Repr

/-- One run of `fetch` in realtime_fetcher.py. `fetchOk` covers
`requests.get` and `ParseFromString` (unguarded); `persistOk` the
`vehicle_positions.to_sql` insert (guarded by `try/except`). Control flow
of lines 49–90: on a duplicate timestamp the cycle logs and still
reassigns `last_timestamp`; otherwise the entity list is flattened, `id`
renamed to `entity_id`, the raw epoch header timestamp stamped on every
row, the point column built by unconditional attribute access (an
`AttributeError` escapes `fetch` before `last_timestamp` is updated; an
empty entity list already raises `KeyError` at `MessageToDict(...)["entity"]`),
the `vehicle_multiCarriageDetails` column dropped, and the frame inserted;
an insert failure is caught and logged, after which `last_timestamp` is
nevertheless set to the new value. -/
def realtimeFetcherCycle (st : RTState) (fetchOk : Bool)
    (msg : RTFeedMessage) (persistOk : Bool) : RTCycleResult :=
  if !fetchOk then ⟨st, [], true, false⟩
  else
    let ts := msg.header.timestamp
    if st.lastTimestamp == some ts then
      ⟨⟨some ts⟩, [], false, true⟩
    else if msg.entity.isEmpty then
      ⟨st, [], true, false⟩
    else
      let f1 := renameColumn "id" "entity_id" (normalizeEntities msg.entity)
      let f2 := addConstColumn "feedMessage_timestamp" (Value.nat ts) f1
      match addPointColumn f2 with
      | Except.error _ => ⟨st, [], true, false⟩
      | Except.ok f3 =>
        let f4 := dropColumn "vehicle_multiCarriageDetails" f3
        if persistOk then
          ⟨⟨some ts⟩, [⟨"vehicle_positions", f4.columns, f4.rows⟩], false, false⟩
        else
          ⟨⟨some ts⟩, [], false, true⟩

/-! ## Poll cycle of test_vehicle_positions.py -/

/-- The `last_timestamp` cell of the test vehicle-positions job (here it
stores the converted calendar timestamp). -/
structure TVPState where
  lastTimestamp : Option Int
deriving DecidableEq, Repr

/-- Outcome of one run of the test vehicle-positions `fetch` job. -/
structure TVPCycleResult where
  state : TVPState
  persisted : List PersistCall
  escaped : Bool
  loggedError : Bool
deriving DecidableEq, Repr

/-- The `feed_messages` insert the test jobs perform first. -/
def feedMessageCall (cal : Int) (entityType : String) (h : RTHeader) :
    PersistCall :=
  ⟨"feed_messages",
   ["timestamp", "entityType", "incrementality", "gtfsRealtimeVersion"],
   [[("timestamp", Value.time cal), ("entityType", Value.str entityType),
     ("incrementality", Value.str h.incrementality),
     ("gtfsRealtimeVersion", Value.str h.gtfsRealtimeVersion)]]⟩

/-- One run of `fetch` in test_vehicle_positions.py. `off` is the system
local UTC offset in seconds applied by `datetime.fromtimestamp`. The whole
proceed branch sits inside one `try/except` (so normalization and insert
failures are logged, never escape; only the unguarded `requests.get` /
`ParseFromString` can escape), and `last_timestamp` is reassigned at the
end of every non-escaping cycle. Step order of lines 50–110: convert the
header timestamp, compare, insert the `feed_messages` row, flatten the
entities, stamp `feedMessage_timestamp` (converted) and
`feedMessage_entityType`, rename `id` to `entityId`, build the point
column, convert `vehicle_timestamp`, drop `vehicle_multiCarriageDetails`,
insert the frame. -/
def testVehiclePositionsCycle (off : Int) (st : TVPState) (fetchOk : Bool)
    (msg : RTFeedMessage) (persistFeedOk persistVehOk : Bool) :
    TVPCycleResult :=
  if !fetchOk then ⟨st, [], true, false⟩
  else
    let cal : Int := (msg.header.timestamp : Int) + off
    if st.lastTimestamp == some cal then
      ⟨⟨some cal⟩, [], false, true⟩
    else
      let fm := feedMessageCall cal "vehicle" msg.header
      if !persistFeedOk then ⟨⟨some cal⟩, [], false, true⟩
      else if msg.entity.isEmpty then ⟨⟨some cal⟩, [fm], false, true⟩
      else
        let f1 := addConstColumn "feedMessage_timestamp" (Value.time cal)
          (normalizeEntities msg.entity)
        let f2 := addConstColumn "feedMessage_entityType" (Value.str "vehicle") f1
        let f3 := renameColumn "id" "entityId" f2
        match addPointColumn f3 with
        | Except.error _ => ⟨⟨some cal⟩, [fm], false, true⟩
        | Except.ok f4 =>
          match convertEpochColumnUnguarded off "vehicle_timestamp" f4 with
          | Except.error _ => ⟨⟨some cal⟩, [fm], false, true⟩
          | Except.ok f5 =>
            let f6 := dropColumn "vehicle_multiCarriageDetails" f5
            if persistVehOk then
              ⟨⟨some cal⟩, [fm, ⟨"vehicle_positions", f6.columns, f6.rows⟩],
               false, false⟩
            else ⟨⟨some cal⟩, [fm], false, true⟩

/-! ## Poll cycle of test_trip_updates.py -/

/-- One `FeedEntity` of a trip-updates feed: its id, the flattened
`tripUpdate` fields other than the timestamp and the nested list (given
with their full flattened keys), the `tripUpdate.timestamp`, and the
nested `stopTimeUpdate` list (each element already a flat dict), `none`
when the wire message omits it. -/
structure TUEntity where
  id : String
  fields : List (String × Value)
  timestamp : Option Nat
  stopTimeUpdate : Option (List FlatRow)
deriving DecidableEq, Repr

/-- A decoded trip-updates `FeedMessage`. -/
structure TUFeedMessage where
  header : RTHeader
  entity : List TUEntity
deriving DecidableEq, Repr

/-- Flattening of one trip-update entity as `pd.json_normalize` sees it,
without the `tripUpdate_stopTimeUpdate` cell: the source extracts that
column into `stop_time_builder` and then `pop`s it from the frame before
the frame is persisted, so the persisted trip-update frame never holds it;
the builder is modelled directly from the entity list below. -/
def flattenTUEntity (e : TUEntity) : FlatRow :=
  ("id", Value.str e.id) :: e.fields
  ++ (match e.timestamp with
      | none => []
      | some t => [("tripUpdate_timestamp", Value.nat t)])

/-- The `stop_time_updates` insert built for one parent row of
`stop_time_builder`: `none` when the parent's `tripUpdate_stopTimeUpdate`
cell is NaN (`pd.json_normalize` raises there and the loop `continue`s).
Otherwise the nested dicts are normalized, stamped with the parent's full
composite key, the `arrival_time`/`departure_time` columns converted when
present, and the frame inserted. -/
def stuInsert (off cal : Int) (e : TUEntity) : Option PersistCall :=
  match e.stopTimeUpdate with
  | none => none
  | some dicts =>
    let f : Frame := ⟨unionKeys dicts, dicts⟩
    let f1 := addConstColumn "feedMessage_timestamp" (Value.time cal) f
    let f2 := addConstColumn "feedMessage_entityType" (Value.str "tripUpdate") f1
    let f3 := addConstColumn "entityId" (Value.str e.id) f2
    let f4 := if f3.columns.contains "arrival_time" then
                convertEpochColumn off "arrival_time" f3
              else f3
    let f5 := if f4.columns.contains "departure_time" then
                convertEpochColumn off "departure_time" f4
              else f4
    some ⟨"stop_time_updates", f5.columns, f5.rows⟩

/-- Outcome of one run of the test trip-updates `fetch` job. -/
structure TTUCycleResult where
  state : TVPState
  persisted : List PersistCall
  escaped : Bool
  loggedError : Bool
deriving DecidableEq, Repr

/-- One run of `fetch` in test_trip_updates.py. The proceed branch has no
surrounding handler (only the per-row `json_normalize` is guarded with
`try/except: continue`), so any failure there escapes; `persistOk`
abstracts all the `to_sql` calls of the cycle, the first failing one
escaping. Step order of lines 50–130: convert header timestamp, compare,
insert the `feed_messages` row, flatten entities, stamp
`feedMessage_timestamp` / `feedMessage_entityType`, rename `id` to
`entityId`, convert `tripUpdate_timestamp` by unconditional attribute
access, extract `stop_time_builder` (a `KeyError` escapes when no entity
carries a `stopTimeUpdate` list), insert one `stop_time_updates` frame
per parent that has one, and only then insert the `trip_updates` frame. -/
def testTripUpdatesCycle (off : Int) (st : TVPState) (fetchOk : Bool)
    (msg : TUFeedMessage) (persistOk : Bool) : TTUCycleResult :=
  if !fetchOk then ⟨st, [], true, false⟩
  else
    let cal : Int := (msg.header.timestamp : Int) + off
    if st.lastTimestamp == some cal then
      ⟨⟨some cal⟩, [], false, true⟩
    else
      let fm := feedMessageCall cal "tripUpdate" msg.header
      if !persistOk then ⟨st, [], true, false⟩
      else if msg.entity.isEmpty then ⟨st, [fm], true, false⟩
      else
        let base : Frame := ⟨unionKeys (msg.entity.map flattenTUEntity),
                             msg.entity.map flattenTUEntity⟩
        let f1 := addConstColumn "feedMessage_timestamp" (Value.time cal) base
        let f2 := addConstColumn "feedMessage_entityType"
          (Value.str "tripUpdate") f1
        let f3 := renameColumn "id" "entityId" f2
        match convertEpochColumnUnguarded off "tripUpdate_timestamp" f3 with
        | Except.error _ => ⟨st, [fm], true, false⟩
        | Except.ok f4 =>
          if msg.entity.all (fun e => e.stopTimeUpdate.isNone) then
            ⟨st, [fm], true, false⟩
          else
            let stuCalls := (msg.entity.map (stuInsert off cal)).reduceOption
            ⟨⟨some cal⟩,
             fm :: (stuCalls ++ [⟨"trip_updates", f4.columns, f4.rows⟩]),
             false, false⟩

/-! ## Helper lemmas -/

/-- In every foreign-key constraint of every Schedule child table, the
pair of source and target columns includes feed_id paired with feed_id. -/
theorem feedIdPairMem : ∀ t ∈ scheduleChildTables, ∀ fk ∈ t.fks,
    ("feed_id", "feed_id") ∈ fk.srcCols.zip fk.tgtCols := by decide

/-- Filtering a name out of a column list leaves a list not containing it. -/
theorem contains_filter_ne (l : List String) (n : String) :
    ((l.filter (fun c => !(c == n))).contains n) = false := by
  induction l with
  | nil => rfl
  | cons a as ih =>
    by_cases h : a = n
    · simp [List.filter, h, ih]
    · simp only [List.filter]
      have : (a == n) = false := by simp [h]
      simp only [this, List.contains_cons, ih, Bool.or_false]
      simpa using fun hna => h hna.symm

/-! ## C2: feed identity isolation in the Schedule schema -/

/-- C2: every Schedule child table's primary key has feed_id as its first
column, and every foreign-key constraint pairs feed_id with feed_id, so
any two rows related by a declared foreign key agree on their feed_id —
no persisted row can reference rows of a different feed identity. -/
theorem feedIdPrefixAndForeignKeysCarryFeedId :
    (∀ t ∈ scheduleChildTables, t.pkCols.head? = some "feed_id") ∧
    (∀ t ∈ scheduleChildTables, ∀ fk ∈ t.fks, ∀ r s : RowVal,
      fkHolds fk r s → r "feed_id" = s "feed_id") := by
  constructor
  · decide
  · intro t ht fk hfk r s h
    exact h ("feed_id", "feed_id") (feedIdPairMem t ht fk hfk)

/-- Witness for C2: instantiation at the trips table, its route foreign
key, and a concrete pair of rows satisfying the constraint. -/
theorem feedIdPrefixAndForeignKeysCarryFeedId_witness :
    tripsTable.pkCols.head? = some "feed_id" ∧
    (fun _ => "2024-01-01T00:00:00" : RowVal) "feed_id"
      = (fun _ => "2024-01-01T00:00:00" : RowVal) "feed_id" := by
  constructor
  · exact feedIdPrefixAndForeignKeysCarryFeedId.1 tripsTable (by decide)
  · exact feedIdPrefixAndForeignKeysCarryFeedId.2 tripsTable (by decide)
      ⟨["feed_id", "route_id"], "routes", ["feed_id", "route_id"]⟩ (by decide)
      (fun _ => "2024-01-01T00:00:00") (fun _ => "2024-01-01T00:00:00")
      (fun _ _ => rfl)

/-! ## C3: GeoShape point order -/

/-- Counterexample to C3: for shape S1 with rows at sequences [2, 1, 3]
(in that file order) with distinct coordinates, the derived linestring
keeps the file row order, not ascending sequence order — the source never
sorts a group by shape_pt_sequence. -/
theorem geoShapesIgnoreSequenceOrder :
    geoShapes "F" [⟨"S1", 2, "10.2", "-84.2"⟩, ⟨"S1", 1, "10.1", "-84.1"⟩,
                   ⟨"S1", 3, "10.3", "-84.3"⟩]
      = [⟨"F", "S1", "LINESTRING(-84.2 10.2,-84.1 10.1,-84.3 10.3)"⟩] ∧
    geoShapesSpec "F" [⟨"S1", 2, "10.2", "-84.2"⟩, ⟨"S1", 1, "10.1", "-84.1"⟩,
                       ⟨"S1", 3, "10.3", "-84.3"⟩]
      = [⟨"F", "S1", "LINESTRING(-84.1 10.1,-84.2 10.2,-84.3 10.3)"⟩] ∧
    geoShapes "F" [⟨"S1", 2, "10.2", "-84.2"⟩, ⟨"S1", 1, "10.1", "-84.1"⟩,
                   ⟨"S1", 3, "10.3", "-84.3"⟩]
      ≠ geoShapesSpec "F" [⟨"S1", 2, "10.2", "-84.2"⟩,
                           ⟨"S1", 1, "10.1", "-84.1"⟩,
                           ⟨"S1", 3, "10.3", "-84.3"⟩] := by
  refine ⟨by decide, by decide, by decide⟩

/-- C3 as amended: the derivation groups rows by shape identity and
concatenates each group's coordinates in source row order; it coincides
with the spec's sequence-ordered construction exactly on tables whose
groups already appear in ascending sequence order. -/
theorem geoShapesMatchSpecOnSortedGroups (fid : String) (rows : List ShapeRow)
    (h : ∀ sid ∈ uniqueIds rows, List.Sorted seqLe (shapeGroup rows sid)) :
    geoShapes fid rows = geoShapesSpec fid rows := by
  unfold geoShapes geoShapesSpec
  refine List.map_congr_left ?_
  intro sid hsid
  rw [List.Sorted.insertionSort_eq (h sid hsid)]

/-- Witness for C3: a shape with rows at sequences [1, 2, 3] already in
file order, where the derivation agrees with the sequence-ordered form. -/
theorem geoShapesMatchSpecOnSortedGroups_witness :
    geoShapes "F" [⟨"S1", 1, "10.1", "-84.1"⟩, ⟨"S1", 2, "10.2", "-84.2"⟩,
                   ⟨"S1", 3, "10.3", "-84.3"⟩]
      = geoShapesSpec "F" [⟨"S1", 1, "10.1", "-84.1"⟩,
                           ⟨"S1", 2, "10.2", "-84.2"⟩,
                           ⟨"S1", 3, "10.3", "-84.3"⟩] :=
  geoShapesMatchSpecOnSortedGroups "F" _ (by decide)

/-! ## C4: degenerate shape groups -/

/-- Counterexample to C4: a shapes group with a single point neither
fails nor is skipped — the derivation produces a (degenerate) one-point
LINESTRING record for it. -/
theorem degenerateShapeStillProducesRecord :
    geoShapes "F" [⟨"S1", 1, "9.5", "-84.1"⟩]
      = [⟨"F", "S1", "LINESTRING(-84.1 9.5)"⟩] ∧
    geoShapes "F" [⟨"S1", 1, "9.5", "-84.1"⟩] ≠ [] := by
  refine ⟨by decide, by decide⟩

/-- C4 as amended: every shape id occurring in the table — including one
whose group has fewer than 2 points — yields exactly one GeoShape record;
no validation rejects a degenerate group (a one-point group yields a
one-point LINESTRING), and the derivation never aborts. -/
theorem geoShapeRecordPerShapeId :
    (∀ (fid : String) (rows : List ShapeRow),
      (geoShapes fid rows).map GeoShapeRec.geoshape_id = uniqueIds rows) ∧
    geoShapes "G" [⟨"S2", 7, "1.5", "2.5"⟩]
      = [⟨"G", "S2", "LINESTRING(2.5 1.5)"⟩] := by
  constructor
  · intro fid rows
    unfold geoShapes
    rw [List.map_map]
    exact List.map_id _
  · decide

/-! ## C1: when the last-seen freshness signal is updated -/

/-- Counterexample to C1: a cycle whose persistence fails is still marked
as seen. The schedule job reassigns `last_feed_tag` immediately on
detection, so when the feeds insert then raises, the new ETag is already
stored (and nothing was persisted); the realtime job reassigns
`last_timestamp` at the end of a cycle whose insert failed and was merely
logged. -/
theorem failedPersistCycleMarkedSeen :
    (scheduleFetchCycle ⟨none⟩ true "W-abc123" false true).state.lastFeedTag
      = some "W-abc123" ∧
    (scheduleFetchCycle ⟨none⟩ true "W-abc123" false true).persisted = [] ∧
    (scheduleFetchCycle ⟨none⟩ true "W-abc123" false true).escaped = true ∧
    (realtimeFetcherCycle ⟨none⟩ true
      ⟨⟨1700000000, "FULL_DATASET", "2.0"⟩,
       [⟨"bus1", some ⟨[], some ⟨"9.93", "-84.08"⟩, some 1699999990, none, []⟩⟩]⟩
      false).state.lastTimestamp = some 1700000000 ∧
    (realtimeFetcherCycle ⟨none⟩ true
      ⟨⟨1700000000, "FULL_DATASET", "2.0"⟩,
       [⟨"bus1", some ⟨[], some ⟨"9.93", "-84.08"⟩, some 1699999990, none, []⟩⟩]⟩
      false).persisted = [] ∧
    (realtimeFetcherCycle ⟨none⟩ true
      ⟨⟨1700000000, "FULL_DATASET", "2.0"⟩,
       [⟨"bus1", some ⟨[], some ⟨"9.93", "-84.08"⟩, some 1699999990, none, []⟩⟩]⟩
      false).loggedError = true := by
  refine ⟨by decide, by decide, by decide, by decide, by decide, by decide⟩

/-- C1 as amended: on "proceed" the schedule job stores the new ETag
immediately upon detection — before normalization or persistence and
regardless of their outcome — and the realtime job stores the new header
timestamp at the end of every cycle that does not raise, even when the
entity insert failed and was only logged; a cycle that fails to persist
can therefore be marked as seen. -/
theorem lastSeenSignalUpdatedOnDetection :
    (∀ (st : SchedState) (etag : String) (pOk tOk : Bool),
      ¬ st.lastFeedTag = some etag →
      (scheduleFetchCycle st true etag pOk tOk).state.lastFeedTag = some etag) ∧
    (∀ (st : RTState) (msg : RTFeedMessage) (pOk : Bool),
      (realtimeFetcherCycle st true msg pOk).escaped = false →
      (realtimeFetcherCycle st true msg pOk).state.lastTimestamp
        = some msg.header.timestamp) := by
  constructor
  · intro st etag pOk tOk hne
    have hbeq : (st.lastFeedTag == some etag) = false := by simp [hne]
    cases pOk <;> cases tOk <;> simp [scheduleFetchCycle, hbeq]
  · intro st msg pOk h
    revert h
    unfold realtimeFetcherCycle
    by_cases hdup : st.lastTimestamp = some msg.header.timestamp
    · intro h
      simp [hdup]
    · cases hpc : addPointColumn (addConstColumn "feedMessage_timestamp"
          (Value.nat msg.header.timestamp)
          (renameColumn "id" "entity_id" (normalizeEntities msg.entity))) with
      | error e =>
        intro h
        by_cases hemp : msg.entity.isEmpty <;> simp [hdup, hemp, hpc] at h ⊢
      | ok f3 =>
        intro h
        by_cases hemp : msg.entity.isEmpty <;> cases pOk <;>
          simp [hdup, hemp, hpc] at h ⊢

/-- Witness for C1's amended statement: a changed ETag with a failing
feeds insert still updates the stored tag, and a realtime cycle with a
failing entity insert still updates the stored timestamp. -/
theorem lastSeenSignalUpdatedOnDetection_witness :
    (scheduleFetchCycle ⟨some "old-tag"⟩ true "new-tag" false false).state.lastFeedTag
      = some "new-tag" ∧
    (realtimeFetcherCycle ⟨some 5⟩ true
      ⟨⟨1700000300, "FULL_DATASET", "2.0"⟩,
       [⟨"bus2", some ⟨[], some ⟨"9.90", "-84.10"⟩, none, none, []⟩⟩]⟩
      false).state.lastTimestamp = some 1700000300 := by
  constructor
  · exact lastSeenSignalUpdatedOnDetection.1 ⟨some "old-tag"⟩ "new-tag"
      false false (by decide)
  · exact lastSeenSignalUpdatedOnDetection.2 ⟨some 5⟩
      ⟨⟨1700000300, "FULL_DATASET", "2.0"⟩,
       [⟨"bus2", some ⟨[], some ⟨"9.90", "-84.10"⟩, none, none, []⟩⟩]⟩
      false (by decide)

/-! ## C5: the FeedMessage record -/

/-- Counterexample to C5: a proceeding cycle of realtime_fetcher.py emits
no FeedMessage record at all — its only insert is the entity frame (which
carries the raw, unconverted epoch header timestamp; the job never reads
incrementality or the realtime-version string). -/
theorem realtimeFetcherEmitsNoFeedMessage :
    ((realtimeFetcherCycle ⟨none⟩ true
      ⟨⟨1700000400, "FULL_DATASET", "2.0"⟩,
       [⟨"bus3", some ⟨[], some ⟨"9.95", "-84.05"⟩, some 1700000395, none, []⟩⟩]⟩
      true).persisted.map PersistCall.table) = ["vehicle_positions"] ∧
    (realtimeFetcherCycle ⟨none⟩ true
      ⟨⟨1700000400, "FULL_DATASET", "2.0"⟩,
       [⟨"bus3", some ⟨[], some ⟨"9.95", "-84.05"⟩, some 1700000395, none, []⟩⟩]⟩
      true).escaped = false := by
  refine ⟨by decide, by decide⟩

/-- C5 as amended: the test vehicle-positions job does emit exactly one
FeedMessage record — keyed by the converted header timestamp and the
entity type, carrying the incrementality flag and realtime-version
string — and persists it before any entity rows; the production realtime
fetcher emits none. -/
theorem testJobEmitsFeedMessageFirst (off : Int) (last : Option Int)
    (msg : RTFeedMessage) (pVeh : Bool)
    (hne : ¬ last = some ((msg.header.timestamp : Int) + off)) :
    (testVehiclePositionsCycle off ⟨last⟩ true msg true pVeh).persisted.head?
      = some (feedMessageCall ((msg.header.timestamp : Int) + off) "vehicle"
          msg.header) ∧
    ((testVehiclePositionsCycle off ⟨last⟩ true msg true pVeh).persisted.map
        PersistCall.table = ["feed_messages"] ∨
     (testVehiclePositionsCycle off ⟨last⟩ true msg true pVeh).persisted.map
        PersistCall.table = ["feed_messages", "vehicle_positions"]) := by
  simp only [testVehiclePositionsCycle]
  repeat' split
  all_goals simp_all [feedMessageCall]

/-- Witness for C5's amended statement at a concrete message and a
UTC-6 local offset. -/
theorem testJobEmitsFeedMessageFirst_witness :
    (testVehiclePositionsCycle (-21600) ⟨none⟩ true
      ⟨⟨1700000500, "FULL_DATASET", "2.0"⟩,
       [⟨"bus4", some ⟨[], some ⟨"9.97", "-84.03"⟩, some 1700000480, none, []⟩⟩]⟩
      true true).persisted.head?
      = some (feedMessageCall (((1700000500 : Nat) : Int) + (-21600)) "vehicle"
          ⟨1700000500, "FULL_DATASET", "2.0"⟩) ∧
    ((testVehiclePositionsCycle (-21600) ⟨none⟩ true
      ⟨⟨1700000500, "FULL_DATASET", "2.0"⟩,
       [⟨"bus4", some ⟨[], some ⟨"9.97", "-84.03"⟩, some 1700000480, none, []⟩⟩]⟩
      true true).persisted.map PersistCall.table = ["feed_messages"] ∨
     (testVehiclePositionsCycle (-21600) ⟨none⟩ true
      ⟨⟨1700000500, "FULL_DATASET", "2.0"⟩,
       [⟨"bus4", some ⟨[], some ⟨"9.97", "-84.03"⟩, some 1700000480, none, []⟩⟩]⟩
      true true).persisted.map PersistCall.table
        = ["feed_messages", "vehicle_positions"]) :=
  testJobEmitsFeedMessageFirst (-21600) none
    ⟨⟨1700000500, "FULL_DATASET", "2.0"⟩,
     [⟨"bus4", some ⟨[], some ⟨"9.97", "-84.03"⟩, some 1700000480, none, []⟩⟩]⟩
    true (by decide)

/-! ## C6: vehicle timestamp conversion and point geometry -/

/-- Counterexample to C6: with a system local offset of UTC-6
(as `datetime.fromtimestamp` applies), a vehicle message with embedded
epoch timestamp 1699999990 is persisted by the test job with calendar
value 1699978390 (local), not the UTC conversion 1699999990. -/
theorem vehicleTimestampNotUtc :
    ((testVehiclePositionsCycle (-21600) ⟨none⟩ true
      ⟨⟨1700000000, "FULL_DATASET", "2.0"⟩,
       [⟨"v1", some ⟨[], some ⟨"9.93", "-84.08"⟩, some 1699999990, none, []⟩⟩]⟩
      true true).persisted.map PersistCall.table)
      = ["feed_messages", "vehicle_positions"] ∧
    ((testVehiclePositionsCycle (-21600) ⟨none⟩ true
      ⟨⟨1700000000, "FULL_DATASET", "2.0"⟩,
       [⟨"v1", some ⟨[], some ⟨"9.93", "-84.08"⟩, some 1699999990, none, []⟩⟩]⟩
      true true).persisted.getLast?.map
        (fun pc => pc.rows.map (fun row => cellOf row "vehicle_timestamp")))
      = some [some (Value.time 1699978390)] ∧
    Value.time 1699978390 ≠ Value.time ((1699999990 : Nat) : Int) := by
  refine ⟨by decide, by decide, by decide⟩

/-- C6 as amended: for a single-entity vehicle message with embedded
epoch timestamp T and raw coordinates (latitude la, longitude lo), the
test job persists the row with calendar value T shifted by the system
local offset (equal to the UTC conversion exactly when that offset is 0)
and with point geometry POINT(lo la) built from the raw
longitude/latitude fields at write time; the production realtime fetcher
persists the raw epoch value T unconverted, with the same point
geometry. -/
theorem vehicleTimestampLocalAndPointFromRawFields
    (off : Int) (last : Option Int) (lastRT : Option Nat)
    (eid la lo inc ver : String) (T ts : Nat) (mcd : Option String)
    (h1 : ¬ last = some ((ts : Int) + off))
    (h2 : ¬ lastRT = some ts) :
    ((testVehiclePositionsCycle off ⟨last⟩ true
        ⟨⟨ts, inc, ver⟩, [⟨eid, some ⟨[], some ⟨la, lo⟩, some T, mcd, []⟩⟩]⟩
        true true).persisted.map
      (fun pc => pc.rows.map (fun row =>
        (cellOf row "vehicle_timestamp", cellOf row "vehicle_position_point"))))
      = [[(none, none)],
         [(some (Value.time ((T : Int) + off)),
           some (Value.str ("POINT(" ++ lo ++ " " ++ la ++ ")")))]] ∧
    (((T : Int) + off = (T : Int)) ↔ off = 0) ∧
    ((realtimeFetcherCycle ⟨lastRT⟩ true
        ⟨⟨ts, inc, ver⟩, [⟨eid, some ⟨[], some ⟨la, lo⟩, some T, mcd, []⟩⟩]⟩
        true).persisted.map
      (fun pc => pc.rows.map (fun row =>
        (cellOf row "vehicle_timestamp", cellOf row "vehicle_position_point"))))
      = [[(some (Value.nat T),
           some (Value.str ("POINT(" ++ lo ++ " " ++ la ++ ")")))]] := by
  have hb1 : (last == some ((ts : Int) + off)) = false := by simpa using h1
  have hb2 : (lastRT == some ts) = false := by simpa using h2
  refine ⟨?_, by omega, ?_⟩
  · cases mcd <;>
      simp [testVehiclePositionsCycle, hb1, normalizeEntities, flattenEntity,
        flattenVehicle, unionKeys, addKeys, addConstColumn, renameColumn,
        addPointColumn, convertEpochColumnUnguarded, convertEpochColumn,
        dropColumn, cellOf, cellText, feedMessageCall]
  · cases mcd <;>
      simp [realtimeFetcherCycle, hb2, normalizeEntities, flattenEntity,
        flattenVehicle, unionKeys, addKeys, addConstColumn, renameColumn,
        addPointColumn, dropColumn, cellOf, cellText]

/-- Witness for C6's amended statement at a concrete message, a UTC+1
local offset, and a present multi-carriage-details field. -/
theorem vehicleTimestampLocalAndPointFromRawFields_witness :
    ((testVehiclePositionsCycle 3600 ⟨some 99⟩ true
        ⟨⟨1700001100, "DIFFERENTIAL", "2.0"⟩,
         [⟨"v9", some ⟨[], some ⟨"10.00", "-84.00"⟩, some 1700001000,
           some "mc", []⟩⟩]⟩
        true true).persisted.map
      (fun pc => pc.rows.map (fun row =>
        (cellOf row "vehicle_timestamp", cellOf row "vehicle_position_point"))))
      = [[(none, none)],
         [(some (Value.time (((1700001000 : Nat) : Int) + 3600)),
           some (Value.str ("POINT(" ++ "-84.00" ++ " " ++ "10.00" ++ ")")))]] ∧
    ((((1700001000 : Nat) : Int) + 3600 = ((1700001000 : Nat) : Int))
      ↔ (3600 : Int) = 0) ∧
    ((realtimeFetcherCycle ⟨some 42⟩ true
        ⟨⟨1700001100, "DIFFERENTIAL", "2.0"⟩,
         [⟨"v9", some ⟨[], some ⟨"10.00", "-84.00"⟩, some 1700001000,
           some "mc", []⟩⟩]⟩
        true).persisted.map
      (fun pc => pc.rows.map (fun row =>
        (cellOf row "vehicle_timestamp", cellOf row "vehicle_position_point"))))
      = [[(some (Value.nat 1700001000),
           some (Value.str ("POINT(" ++ "-84.00" ++ " " ++ "10.00" ++ ")")))]] :=
  vehicleTimestampLocalAndPointFromRawFields 3600 (some 99) (some 42)
    "v9" "10.00" "-84.00" "DIFFERENTIAL" "2.0" 1700001000 1700001100
    (some "mc") (by decide) (by decide)

/-! ## C7: persistence order of parents and children -/

/-- C7 (code bug): for a trip-updates message with one TripUpdate entity
holding one StopTimeUpdate, the test trip-updates job inserts the
`stop_time_updates` batch before the `trip_updates` batch, even though
the child row is stamped with its parent TripUpdate's composite key —
which the schema declares as a foreign key into `trip_updates` — and
that parent row is not yet persisted at insert time. Only the
FeedMessage-first half of the claimed order holds. -/
theorem stopTimeUpdatesPersistedBeforeTripUpdates :
    ((testTripUpdatesCycle 0 ⟨none⟩ true
      ⟨⟨1700000000, "FULL_DATASET", "2.0"⟩,
       [⟨"t1", [("tripUpdate_trip_tripId", Value.str "trip9")], some 1700000050,
         some [[("stopSequence", Value.nat 3), ("stopId", Value.str "SJ1"),
                ("arrival_time", Value.nat 1700000100)]]⟩]⟩
      true).persisted.map PersistCall.table)
      = ["feed_messages", "stop_time_updates", "trip_updates"] ∧
    ((testTripUpdatesCycle 0 ⟨none⟩ true
      ⟨⟨1700000000, "FULL_DATASET", "2.0"⟩,
       [⟨"t1", [("tripUpdate_trip_tripId", Value.str "trip9")], some 1700000050,
         some [[("stopSequence", Value.nat 3), ("stopId", Value.str "SJ1"),
                ("arrival_time", Value.nat 1700000100)]]⟩]⟩
      true).persisted.map (fun pc => pc.rows.map (fun row => cellOf row "entityId")))
      = [[none], [some (Value.str "t1")], [some (Value.str "t1")]] := by
  refine ⟨by decide, by decide⟩

/-! ## C8: error containment -/

/-- Counterexample to C8: a fetch failure in the realtime job and a
persistence failure in the schedule job both escape the job function —
neither is caught inside `fetch`. -/
theorem fetchErrorEscapesJob :
    (realtimeFetcherCycle ⟨none⟩ false
      ⟨⟨1700000600, "FULL_DATASET", "2.0"⟩,
       [⟨"bus5", some ⟨[], some ⟨"9.91", "-84.11"⟩, none, none, []⟩⟩]⟩
      true).escaped = true ∧
    (scheduleFetchCycle ⟨none⟩ true "tag-xyz" false true).escaped = true := by
  refine ⟨by decide, by decide⟩

/-- C8 as amended: in the realtime job, only the entity-insert step is
guarded — whether the insert succeeds never changes whether the cycle
escapes, and a non-escaping cycle with a failing insert is merely
logged — while a fetch/decode failure always escapes; in the schedule
job, a failing feeds insert on a changed ETag escapes, and a fetch
failure always escapes. No "log and continue" policy covers fetch,
parse, normalization, or schedule-side persistence errors. -/
theorem onlyRealtimeInsertErrorsCaught :
    (∀ (st : RTState) (msg : RTFeedMessage) (pOk : Bool),
      (realtimeFetcherCycle st true msg pOk).escaped
        = (realtimeFetcherCycle st true msg true).escaped) ∧
    (∀ (st : RTState) (msg : RTFeedMessage),
      (realtimeFetcherCycle st true msg false).escaped = false →
      (realtimeFetcherCycle st true msg false).loggedError = true) ∧
    (∀ (st : RTState) (msg : RTFeedMessage) (pOk : Bool),
      (realtimeFetcherCycle st false msg pOk).escaped = true) ∧
    (∀ (st : SchedState) (etag : String) (tOk : Bool),
      ¬ st.lastFeedTag = some etag →
      (scheduleFetchCycle st true etag false tOk).escaped = true) ∧
    (∀ (st : SchedState) (etag : String) (pOk tOk : Bool),
      (scheduleFetchCycle st false etag pOk tOk).escaped = true) := by
  refine ⟨?_, ?_, ?_, ?_, ?_⟩
  · intro st msg pOk
    simp only [realtimeFetcherCycle]
    repeat' split
    all_goals simp_all
  · intro st msg h
    revert h
    simp only [realtimeFetcherCycle]
    repeat' split
    all_goals intro h
    all_goals simp_all
  · intro st msg pOk
    simp [realtimeFetcherCycle]
  · intro st etag tOk hne
    have hbeq : (st.lastFeedTag == some etag) = false := by simp [hne]
    simp [scheduleFetchCycle, hbeq]
  · intro st etag pOk tOk
    simp [scheduleFetchCycle]

/-- Witness for C8's amended statement at concrete cycles. -/
theorem onlyRealtimeInsertErrorsCaught_witness :
    (realtimeFetcherCycle ⟨none⟩ true
      ⟨⟨1700000700, "FULL_DATASET", "2.0"⟩,
       [⟨"bus6", some ⟨[], some ⟨"9.92", "-84.12"⟩, none, none, []⟩⟩]⟩
      false).escaped
      = (realtimeFetcherCycle ⟨none⟩ true
      ⟨⟨1700000700, "FULL_DATASET", "2.0"⟩,
       [⟨"bus6", some ⟨[], some ⟨"9.92", "-84.12"⟩, none, none, []⟩⟩]⟩
      true).escaped ∧
    (realtimeFetcherCycle ⟨none⟩ true
      ⟨⟨1700000700, "FULL_DATASET", "2.0"⟩,
       [⟨"bus6", some ⟨[], some ⟨"9.92", "-84.12"⟩, none, none, []⟩⟩]⟩
      false).loggedError = true ∧
    (realtimeFetcherCycle ⟨some 7⟩ false
      ⟨⟨1700000700, "FULL_DATASET", "2.0"⟩,
       [⟨"bus6", some ⟨[], some ⟨"9.92", "-84.12"⟩, none, none, []⟩⟩]⟩
      true).escaped = true ∧
    (scheduleFetchCycle ⟨some "s1"⟩ true "s2" false false).escaped = true ∧
    (scheduleFetchCycle ⟨some "s1"⟩ false "s2" true true).escaped = true := by
  refine ⟨?_, ?_, ?_, ?_, ?_⟩
  · exact onlyRealtimeInsertErrorsCaught.1 ⟨none⟩
      ⟨⟨1700000700, "FULL_DATASET", "2.0"⟩,
       [⟨"bus6", some ⟨[], some ⟨"9.92", "-84.12"⟩, none, none, []⟩⟩]⟩ false
  · exact onlyRealtimeInsertErrorsCaught.2.1 ⟨none⟩
      ⟨⟨1700000700, "FULL_DATASET", "2.0"⟩,
       [⟨"bus6", some ⟨[], some ⟨"9.92", "-84.12"⟩, none, none, []⟩⟩]⟩
      (by decide)
  · exact onlyRealtimeInsertErrorsCaught.2.2.1 ⟨some 7⟩
      ⟨⟨1700000700, "FULL_DATASET", "2.0"⟩,
       [⟨"bus6", some ⟨[], some ⟨"9.92", "-84.12"⟩, none, none, []⟩⟩]⟩ true
  · exact onlyRealtimeInsertErrorsCaught.2.2.2.1 ⟨some "s1"⟩ "s2" false
      (by decide)
  · exact onlyRealtimeInsertErrorsCaught.2.2.2.2 ⟨some "s1"⟩ "s2" true true

/-! ## C9: the multi-carriage-details column -/

/-- C9: both realtime jobs unconditionally delete the flattened
`vehicle_multiCarriageDetails` column before the insert, so no persisted
batch ever carries it — even though the `vehicle_positions` schema
declares the column. -/
theorem multiCarriageDetailsNeverPersisted :
    (∀ (st : RTState) (fOk : Bool) (msg : RTFeedMessage) (pOk : Bool),
      ((realtimeFetcherCycle st fOk msg pOk).persisted.all
        (fun pc => !(pc.columns.contains "vehicle_multiCarriageDetails")))
        = true) ∧
    (∀ (off : Int) (st : TVPState) (fOk : Bool) (msg : RTFeedMessage)
        (pF pV : Bool),
      ((testVehiclePositionsCycle off st fOk msg pF pV).persisted.all
        (fun pc => !(pc.columns.contains "vehicle_multiCarriageDetails")))
        = true) ∧
    vehiclePositionColumns.contains "vehicle_multiCarriageDetails" = true := by
  refine ⟨?_, ?_, by decide⟩
  · intro st fOk msg pOk
    simp only [realtimeFetcherCycle]
    repeat' split
    all_goals simp_all [dropColumn, contains_filter_ne]
  · intro off st fOk msg pF pV
    simp only [testVehiclePositionsCycle]
    repeat' split
    all_goals simp_all [dropColumn, contains_filter_ne, feedMessageCall]

/-! ## C10: a feed with no position sub-messages -/

/-- C10: a well-formed, successfully decoded vehicle feed whose (single)
entity carries no position sub-message flattens to a frame without the
coordinate columns; the unconditional point construction then raises, the
exception escapes the job, and no vehicle-position rows are persisted for
that cycle (nor is the stored timestamp updated). -/
theorem missingPositionAbortsCycle :
    ((normalizeEntities
      [⟨"e1", some ⟨[("tripId", Value.str "trip1")], none, some 1700000100,
        none, []⟩⟩]).columns.contains "vehicle_position_longitude") = false ∧
    ((normalizeEntities
      [⟨"e1", some ⟨[("tripId", Value.str "trip1")], none, some 1700000100,
        none, []⟩⟩]).columns.contains "vehicle_position_latitude") = false ∧
    (realtimeFetcherCycle ⟨none⟩ true
      ⟨⟨1700000200, "FULL_DATASET", "2.0"⟩,
       [⟨"e1", some ⟨[("tripId", Value.str "trip1")], none, some 1700000100,
         none, []⟩⟩]⟩ true).escaped = true ∧
    (realtimeFetcherCycle ⟨none⟩ true
      ⟨⟨1700000200, "FULL_DATASET", "2.0"⟩,
       [⟨"e1", some ⟨[("tripId", Value.str "trip1")], none, some 1700000100,
         none, []⟩⟩]⟩ true).persisted = [] ∧
    (realtimeFetcherCycle ⟨none⟩ true
      ⟨⟨1700000200, "FULL_DATASET", "2.0"⟩,
       [⟨"e1", some ⟨[("tripId", Value.str "trip1")], none, some 1700000100,
         none, []⟩⟩]⟩ true).state = ⟨none⟩ := by
  refine ⟨by decide, by decide, by decide, by decide, by decide⟩
